import Mathlib

/-!
Verification development for the TripEase travel-assistant backend.

The Python sources are shallowly embedded: each scraper runs over the
flattened visible text of its candidate containers (HTML parsing itself is
an external collaborator), regex searches are modelled as explicit
character-list scanners with the same leftmost-match semantics, and the
stateful booking flow is modelled by explicit state passing.
-/

/-- Python whitespace characters, as stripped by str.strip(). -/
def isSpaceChar (c : Char) : Bool :=
  c == ' ' || c == '\t' || c == '\n' || c == '\r' || c == '\x0b' || c == '\x0c'

/-- Decimal digit test, the regex class backslash-d (ASCII). -/
def isDigitChar (c : Char) : Bool :=
  c.isDigit

/-- Regex word character (backslash-w, ASCII fragment): letters, digits, underscore. -/
def isWordChar (c : Char) : Bool :=
  c.isAlphanum || c == '_'

/-- Python str.strip() on a character list. -/
def pyStripL (s : List Char) : List Char :=
  ((s.dropWhile isSpaceChar).reverse.dropWhile isSpaceChar).reverse

/-- Python str.strip() on strings. -/
def pyStrip (s : String) : String :=
  String.mk (pyStripL s.data)

/-- Python str.lower() (ASCII model). -/
def pyLower (s : String) : String :=
  String.mk (s.data.map Char.toLower)

/-- Python str.upper() (ASCII model). -/
def pyUpper (s : String) : String :=
  String.mk (s.data.map Char.toUpper)

/-- Boolean prefix test on character lists. -/
def isPrefixL : List Char → List Char → Bool
  | [], _ => true
  | _ :: _, [] => false
  | a :: as, b :: bs => a == b && isPrefixL as bs

/-- Python substring containment, needle first: needle in hay. -/
def containsSub : List Char → List Char → Bool
  | needle, [] => needle.isEmpty
  | needle, c :: rest => isPrefixL needle (c :: rest) || containsSub needle rest

/-- Substring containment on strings. -/
def containsSubStr (needle hay : String) : Bool :=
  containsSub needle.data hay.data

/-- Python str.find: index of the first occurrence of needle, none when absent. -/
def firstOccPos : List Char → List Char → Option Nat
  | needle, [] => if needle.isEmpty then some 0 else none
  | needle, c :: rest =>
    if isPrefixL needle (c :: rest) then some 0
    else (firstOccPos needle rest).map (· + 1)

/-- Python ", ".join. -/
def joinComma : List String → String
  | [] => ""
  | [x] => x
  | x :: y :: rest => x ++ ", " ++ joinComma (y :: rest)

/-- Python dict lookup on an association list (first binding wins). -/
def lookupA (table : List (String × String)) (key : String) : Option String :=
  (table.find? (fun p => p.1 == key)).map (fun p => p.2)

/-- First segment of Python text.split(sep) for the three-character separator
space-bar-space used by TrainScraper.get_text. -/
def splitFirstSep : List Char → List Char
  | [] => []
  | ' ' :: '|' :: ' ' :: _ => []
  | c :: rest => c :: splitFirstSep rest

/-- Does the position after a digit run satisfy the word-boundary assertion? -/
def boundaryNonWord : List Char → Bool
  | [] => true
  | c :: _ => !isWordChar c

/-- Leftmost match of the train-number regex: a word-bounded run of exactly
4 or 5 digits. prevWord records whether the previous character was a word
character; fuel makes the scan structurally recursive. -/
def findIdFuel : Nat → Bool → List Char → Option String
  | 0, _, _ => none
  | _ + 1, _, [] => none
  | fuel + 1, prevWord, c :: rest =>
    if isDigitChar c && !prevWord then
      let run := c :: rest.takeWhile isDigitChar
      let rest2 := rest.dropWhile isDigitChar
      if (run.length == 4 || run.length == 5) && boundaryNonWord rest2 then
        some (String.mk run)
      else findIdFuel fuel true rest2
    else findIdFuel fuel (isWordChar c) rest

/-- re.search for the 4-5 digit train-number token. -/
def extractTrainNum (s : List Char) : Option String :=
  findIdFuel (s.length + 1) false s

/-- re.findall for the time-of-day regex: one or two digits, a colon, two
digits, captured as the (hour, minute) pair of groups. -/
def findTimesFuel : Nat → List Char → List (String × String)
  | 0, _ => []
  | _ + 1, [] => []
  | fuel + 1, c :: rest =>
    if isDigitChar c then
      match rest with
      | [] => []
      | b :: rest1 =>
        if isDigitChar b then
          match rest1 with
          | ':' :: d :: e :: rest2 =>
            if isDigitChar d && isDigitChar e then
              (String.mk [c, b], String.mk [d, e]) :: findTimesFuel fuel rest2
            else findTimesFuel fuel rest
          | _ => findTimesFuel fuel rest
        else if b == ':' then
          match rest1 with
          | d :: e :: rest2 =>
            if isDigitChar d && isDigitChar e then
              (String.mk [c], String.mk [d, e]) :: findTimesFuel fuel rest2
            else findTimesFuel fuel rest
          | _ => findTimesFuel fuel rest
        else findTimesFuel fuel rest
    else findTimesFuel fuel rest

/-- All HH:MM time tokens of a text, in document order. -/
def findTimes (t : List Char) : List (String × String) :=
  findTimesFuel (t.length + 1) t

/-- Leftmost match of TrainScraper.extract_duration's regex: a digit run,
optional whitespace, an hour marker (case-insensitive, alternation always
settles on the single letter h), then optional s, whitespace, digits,
whitespace and m; the whole match is stripped.  Returns group(0).strip(). -/
def durationScanTS : Nat → List Char → Option String
  | 0, _ => none
  | _ + 1, [] => none
  | fuel + 1, c :: rest =>
    if isDigitChar c then
      let run := c :: rest.takeWhile isDigitChar
      let afterRun := rest.dropWhile isDigitChar
      let sp := afterRun.takeWhile isSpaceChar
      let afterSp := afterRun.dropWhile isSpaceChar
      match afterSp with
      | h1 :: t1 =>
        if h1.toLower == 'h' then
          let sPart := match t1 with
            | s1 :: _ => if s1.toLower == 's' then [s1] else []
            | [] => []
          let t2 := t1.drop sPart.length
          let sp2 := t2.takeWhile isSpaceChar
          let a2 := t2.dropWhile isSpaceChar
          let dg := a2.takeWhile isDigitChar
          let a3 := a2.dropWhile isDigitChar
          let sp3 := a3.takeWhile isSpaceChar
          let a4 := a3.dropWhile isSpaceChar
          let mPart := match a4 with
            | m1 :: _ => if m1.toLower == 'm' then [m1] else []
            | [] => []
          some (String.mk (pyStripL
            (run ++ sp ++ [h1] ++ sPart ++ sp2 ++ dg ++ sp3 ++ mPart)))
        else durationScanTS fuel afterRun
      | [] => none
    else durationScanTS fuel rest

/-- TrainScraper.extract_duration. -/
def extract_duration (t : List Char) : Option String :=
  durationScanTS (t.length + 1) t

/-- The starred comma-group part of the scraper price regex: greedily consume
repeated groups of a comma followed by exactly three digits. -/
def commaTriples : Nat → List Char → List Char
  | 0, _ => []
  | fuel + 1, ',' :: a :: b :: c :: rest =>
    if isDigitChar a && isDigitChar b && isDigitChar c then
      ',' :: a :: b :: c :: commaTriples fuel rest
    else []
  | _ + 1, _ => []

/-- Group 1 of the first match of the scraper price regex (optional rupee
sign, whitespace, digits, comma triples): the first maximal digit run of
the text extended by comma triples. -/
def pricesFirst : List Char → Option String
  | [] => none
  | c :: rest =>
    if isDigitChar c then
      let run := c :: rest.takeWhile isDigitChar
      let after := rest.dropWhile isDigitChar
      some (String.mk (run ++ commaTriples after.length after))
    else pricesFirst rest

/-- Leftmost match of a seats-style regex: group 1 is a digit run that is
followed by optional whitespace and one of the given lowercase keyword
alternatives (the source patterns are case-insensitive). -/
def seatsScan (alts : List (List Char)) : Nat → List Char → Option String
  | 0, _ => none
  | _ + 1, [] => none
  | fuel + 1, c :: rest =>
    if isDigitChar c then
      let run := c :: rest.takeWhile isDigitChar
      let afterRun := rest.dropWhile isDigitChar
      let afterSp := afterRun.dropWhile isSpaceChar
      if alts.any (fun a => (afterSp.take a.length).map Char.toLower == a) then
        some (String.mk run)
      else seatsScan alts fuel afterRun
    else seatsScan alts fuel rest

/-- Leftmost match of the agent duration regex: digits, the letter h,
whitespace, digits, optional m, all captured. -/
def agentDurationScan : Nat → List Char → Option String
  | 0, _ => none
  | _ + 1, [] => none
  | fuel + 1, c :: rest =>
    if isDigitChar c then
      let run := c :: rest.takeWhile isDigitChar
      let afterRun := rest.dropWhile isDigitChar
      match afterRun with
      | 'h' :: t1 =>
        let sp := t1.takeWhile isSpaceChar
        let a2 := t1.dropWhile isSpaceChar
        let dg := a2.takeWhile isDigitChar
        let a3 := a2.dropWhile isDigitChar
        let mPart := match a3 with
          | 'm' :: _ => ['m']
          | _ => []
        some (String.mk (run ++ 'h' :: (sp ++ dg ++ mPart)))
      | _ => agentDurationScan fuel afterRun
    else agentDurationScan fuel rest

/-- Leftmost match of the agent rating regex: either digit dot digit, or
digit, whitespace, slash, whitespace, the digit five; alternatives tried
in that order at each position. -/
def ratingScan : Nat → List Char → Option String
  | 0, _ => none
  | _ + 1, [] => none
  | fuel + 1, c :: rest =>
    if isDigitChar c then
      let alt1 := match rest with
        | '.' :: d :: _ => if isDigitChar d then some (String.mk [c, '.', d]) else none
        | _ => none
      match alt1 with
      | some r => some r
      | none =>
        let sp := rest.takeWhile isSpaceChar
        let a1 := rest.dropWhile isSpaceChar
        match a1 with
        | '/' :: t1 =>
          let sp2 := t1.takeWhile isSpaceChar
          let a2 := t1.dropWhile isSpaceChar
          match a2 with
          | '5' :: _ => some (String.mk (c :: sp ++ '/' :: sp2 ++ ['5']))
          | _ => ratingScan fuel rest
        | _ => ratingScan fuel rest
    else ratingScan fuel rest

/-- Leftmost match of the agent price regex: a rupee sign, whitespace, then
a digit-and-comma run starting with a digit, optionally a dot and two
digits; the agent formats the result as the rupee sign plus group 1. -/
def priceScanAgent : Nat → List Char → Option String
  | 0, _ => none
  | _ + 1, [] => none
  | fuel + 1, c :: rest =>
    if c == '₹' then
      let afterSp := rest.dropWhile isSpaceChar
      match afterSp with
      | d :: drest =>
        if isDigitChar d then
          let run := d :: drest.takeWhile (fun x => isDigitChar x || x == ',')
          let after := drest.dropWhile (fun x => isDigitChar x || x == ',')
          let dec := match after with
            | '.' :: x :: y :: _ =>
              if isDigitChar x && isDigitChar y then ['.', x, y] else []
            | _ => []
          some (String.mk ('₹' :: (run ++ dec)))
        else priceScanAgent fuel rest
      | [] => none
    else priceScanAgent fuel rest

/-- One train row extracted by TrainScraper.scrape_trains.  The source also
stores the constant float rating 4.0, a field no logic reads; floats are
outside the embedding and the constant field is omitted. -/
structure ScraperTrain where
  index : Nat
  train_number : String
  train_name : String
  departure : String
  arrival : String
  duration : String
  price_from : String
  seats_available : String
  coaches_available : List String
deriving DecidableEq

/-- One train row extracted by get_trains_easemytrip. -/
structure AgentTrain where
  index : Nat
  train_number : String
  train_name : String
  departure : String
  arrival : String
  duration : String
  price : String
  seats : String
  rating : String
deriving DecidableEq

/-- UI-chrome keywords that make TrainScraper.scrape_trains skip a candidate. -/
def scraperSkipWords : List String :=
  ["search", "filter", "sort", "view all"]

/-- UI-chrome keywords that make get_trains_easemytrip skip a candidate. -/
def agentSkipWords : List String :=
  ["search", "filter", "sort", "javascript", "search trains"]

/-- Python: any(x in text.lower() for x in words). -/
def hasSkipWord (words : List String) (t : List Char) : Bool :=
  words.any (fun w => containsSub w.data (t.map Char.toLower))

/-- TrainScraper.COACH_TYPES. -/
def COACH_TYPES : List (String × String) :=
  [("SL", "Sleeper"), ("3A", "3rd AC"), ("2A", "2nd AC"), ("1A", "1st AC"),
   ("CC", "Chair Car"), ("FC", "First Class"), ("EC", "Executive Chair")]

/-- The coach codes the scraper probes for in document text. -/
def coachScanCodes : List String :=
  ["SL", "3A", "2A", "1A", "CC", "FC"]

/-- Keyword alternatives of the scraper seats regex (case-insensitive). -/
def seatAltsTS : List (List Char) :=
  [("seat").data, ("available").data]

/-- Keyword alternatives of the agent seats regex (case-insensitive). -/
def agentSeatAlts : List (List Char) :=
  [("seat").data, ("available").data, ("vacancy").data, ("seats available").data]

/-- Field extraction of TrainScraper.scrape_trains for one accepted
candidate text t with train number num, appended at position n. -/
def mkScraperTrain (t : List Char) (num : String) (n : Nat) : ScraperTrain :=
  let times := findTimes t
  let departure := match times with
    | p :: _ => p.1 ++ ":" ++ p.2
    | [] => "TBD"
  let arrival := match times with
    | _ :: p :: _ => p.1 ++ ":" ++ p.2
    | _ => "TBD"
  let coaches0 := coachScanCodes.filter
    (fun code => containsSub code.data (t.map Char.toUpper))
  { index := n
    train_number := num
    train_name := String.mk ((splitFirstSep t).take 100)
    departure := departure
    arrival := arrival
    duration := (extract_duration t).getD ("N/A")
    price_from := (pricesFirst t).getD ("Contact")
    seats_available := (seatsScan seatAltsTS (t.length + 1) t).getD ("Multiple")
    coaches_available := if coaches0.isEmpty then ["SL", "3A", "2A", "1A"] else coaches0 }

/-- The per-container loop of TrainScraper.scrape_trains over candidate
texts: skip short or UI-chrome texts and texts without a 4-5 digit train
number; stop once 20 trains are accepted.  n is the number already
accepted (the next index). -/
def scraperLoop : List (List Char) → Nat → List ScraperTrain
  | [], _ => []
  | t :: rest, n =>
    if t.length < 50 || hasSkipWord scraperSkipWords t then scraperLoop rest n
    else
      match extractTrainNum t with
      | none => scraperLoop rest n
      | some num =>
        let tr := mkScraperTrain t num n
        tr :: (if n + 1 ≥ 20 then [] else scraperLoop rest (n + 1))

/-- Outcome of the external page fetch plus container discovery: either the
flattened texts of the candidate containers, or a raised exception. -/
inductive FetchOutcome where
  | ok (cards : List (List Char))
  | exn (msg : String)

/-- Result dictionary of TrainScraper.scrape_trains (url field omitted; the
error dictionary's error field is the stringified exception). -/
structure ScrapeResult where
  status : String
  trains : List ScraperTrain
  message : String
  error : Option String
deriving DecidableEq

/-- TrainScraper.scrape_trains over a fetch outcome. -/
def TrainScraper.scrape_trains : FetchOutcome → ScrapeResult
  | .ok cards =>
    let trains := scraperLoop cards 0
    { status := if trains.isEmpty then "partial" else "success"
      trains := trains
      message := "Found " ++ toString trains.length ++
        " trains. Please select one and choose a coach class."
      error := none }
  | .exn msg =>
    { status := "error"
      trains := []
      message := "Error scraping trains: " ++ msg
      error := some msg }

/-- Field extraction of get_trains_easemytrip for a candidate text t whose
fresh train number is num: none when fewer than two time tokens are found,
otherwise the train row for position n. -/
def mkAgentTrain (t : List Char) (num : String) (n : Nat) : Option AgentTrain :=
  match findTimes t with
  | p0 :: p1 :: _ =>
    let departure := p0.1 ++ ":" ++ p0.2
    let arrival := p1.1 ++ ":" ++ p1.2
    let nameDefault := "Train " ++ num
    let train_name := match firstOccPos departure.data t with
      | some pos =>
        if 0 < pos then
          let nameText := pyStripL (t.take pos)
          if nameText.length > 0 then String.mk (nameText.take 60) else nameDefault
        else nameDefault
      | none => nameDefault
    some { index := n
           train_number := num
           train_name := train_name
           departure := departure
           arrival := arrival
           duration := (agentDurationScan (t.length + 1) t).getD ("N/A")
           price := (priceScanAgent (t.length + 1) t).getD ("N/A")
           seats := (seatsScan agentSeatAlts (t.length + 1) t).getD ("Available")
           rating := (ratingScan (t.length + 1) t).getD ("N/A") }
  | _ => none

/-- The per-card loop of get_trains_easemytrip: skip short or UI-chrome
texts and texts without a train number; a fresh train number is recorded
in seen before the two-times check, so a candidate rejected for lacking
times still blocks later candidates with the same number; stop at 20. -/
def agentLoop : List (List Char) → List String → Nat → List AgentTrain
  | [], _, _ => []
  | t :: rest, seen, n =>
    if t.length < 20 then agentLoop rest seen n
    else if hasSkipWord agentSkipWords t then agentLoop rest seen n
    else
      match extractTrainNum t with
      | none => agentLoop rest seen n
      | some num =>
        if num ∈ seen then agentLoop rest seen n
        else
          match mkAgentTrain t num n with
          | none => agentLoop rest (num :: seen) n
          | some tr => tr :: (if n + 1 ≥ 20 then [] else agentLoop rest (num :: seen) (n + 1))

/-- Result dictionary of get_trains_easemytrip (route echo, url and display
omitted).  The source's except-branch dictionary carries no trains,
total_trains or message keys; they are modelled by the empty list, zero
and the empty string. -/
structure AgentResult where
  status : String
  trains : List AgentTrain
  total_trains : Nat
  message : String
  error_message : Option String
deriving DecidableEq

/-- get_trains_easemytrip over a fetch outcome. -/
def get_trains_easemytrip : FetchOutcome → AgentResult
  | .ok cards =>
    let trains := agentLoop cards [] 0
    { status := "ok"
      trains := trains
      total_trains := trains.length
      message := "Found " ++ toString trains.length ++ " trains. Select one by index [0-" ++
        toString ((trains.length : Int) - 1) ++ "] and coach class (SL, 3A, 2A, 1A)."
      error_message := none }
  | .exn msg =>
    { status := "error"
      trains := []
      total_trains := 0
      message := ""
      error_message := some ("Failed to fetch trains: " ++ msg) }

/-- Mutable state of TrainBookingFlow (url omitted; it only parameterizes
the external fetch). -/
structure FlowState where
  trains : List ScraperTrain
  selected_train : Option ScraperTrain
  selected_coach : Option String
deriving DecidableEq

/-- Placeholder train used to totalize list indexing; selection is guarded
by the bounds check, so it is never read. -/
def defaultScraperTrain : ScraperTrain :=
  { index := 0, train_number := "", train_name := "", departure := "", arrival := "",
    duration := "", price_from := "", seats_available := "", coaches_available := [] }

/-- TrainBookingFlow.fetch_trains: scrape and record the train list. -/
def TrainBookingFlow.fetch_trains (s : FlowState) (f : FetchOutcome) :
    ScrapeResult × FlowState :=
  let result := TrainScraper.scrape_trains f
  (result, { s with trains := result.trains })

/-- Result dictionary of TrainBookingFlow.select_train; optional keys of the
success dictionary are modelled with Option and empty defaults. -/
structure SelectTrainResult where
  status : String
  message : String
  train : Option ScraperTrain
  available_coaches : List String
deriving DecidableEq

/-- TrainBookingFlow.select_train: bounds-checked selection by index. -/
def TrainBookingFlow.select_train (s : FlowState) (train_index : Int) :
    SelectTrainResult × FlowState :=
  if 0 ≤ train_index ∧ train_index < (s.trains.length : Int) then
    let t := s.trains.getD train_index.toNat defaultScraperTrain
    ({ status := "success"
       message := "Selected Train " ++ t.train_number ++ " - " ++ t.train_name
       train := some t
       available_coaches := t.coaches_available },
     { s with selected_train := some t })
  else
    ({ status := "error"
       message := "Invalid train index. Please select 0-" ++ toString ((s.trains.length : Int) - 1)
       train := none
       available_coaches := [] }, s)

/-- Result dictionary of TrainBookingFlow.select_coach. -/
structure SelectCoachResult where
  status : String
  message : String
  train_number : Option String
  coach_class : Option String
  coach_name : Option String
  available_coaches : List String
deriving DecidableEq

/-- TrainBookingFlow.select_coach: requires a selected train, normalizes the
requested class with upper() then strip(), and validates it against the
selected train's coaches_available. -/
def TrainBookingFlow.select_coach (s : FlowState) (coach_class : String) :
    SelectCoachResult × FlowState :=
  match s.selected_train with
  | none =>
    ({ status := "error", message := "Please select a train first",
       train_number := none, coach_class := none, coach_name := none,
       available_coaches := [] }, s)
  | some t =>
    if pyStrip (pyUpper coach_class) ∈ t.coaches_available then
      ({ status := "success"
         message := "Selected " ++
           ((lookupA COACH_TYPES (pyStrip (pyUpper coach_class))).getD
             (pyStrip (pyUpper coach_class))) ++
           " (" ++ pyStrip (pyUpper coach_class) ++ ") for Train " ++ t.train_number
         train_number := some t.train_number
         coach_class := some (pyStrip (pyUpper coach_class))
         coach_name := some ((lookupA COACH_TYPES (pyStrip (pyUpper coach_class))).getD
           (pyStrip (pyUpper coach_class)))
         available_coaches := [] },
       { s with selected_coach := some (pyStrip (pyUpper coach_class)) })
    else
      ({ status := "error"
         message := "Coach " ++ pyStrip (pyUpper coach_class) ++
           " not available for this train. Available: " ++ joinComma t.coaches_available
         train_number := none, coach_class := none, coach_name := none
         available_coaches := t.coaches_available }, s)

/-- The summary dictionary of TrainBookingFlow.get_booking_summary. -/
structure BookingSummary where
  train_number : String
  train_name : String
  departure : String
  arrival : String
  duration : String
  coach_class : String
  coach_name : String
  price_from : String
deriving DecidableEq

/-- Result dictionary of TrainBookingFlow.get_booking_summary. -/
structure SummaryResult where
  status : String
  summary : Option BookingSummary
  message : String
deriving DecidableEq

/-- TrainBookingFlow.get_booking_summary.  The source guard is Python
truthiness on both selections: absent selections are falsy, and an
empty-string coach would also be falsy and is modelled the same way. -/
def TrainBookingFlow.get_booking_summary (s : FlowState) : SummaryResult × FlowState :=
  match s.selected_train, s.selected_coach with
  | some t, some c =>
    if c = "" then
      ({ status := "error", summary := none,
         message := "Incomplete booking details. Please select train and coach." }, s)
    else
      ({ status := "success"
         summary := some
           { train_number := t.train_number, train_name := t.train_name,
             departure := t.departure, arrival := t.arrival, duration := t.duration,
             coach_class := c, coach_name := (lookupA COACH_TYPES c).getD c,
             price_from := t.price_from }
         message := "Ready to proceed with booking. Please confirm to continue." }, s)
  | _, _ =>
    ({ status := "error", summary := none,
       message := "Incomplete booking details. Please select train and coach." }, s)

/-- Outward result of the orchestrator steps (claim-relevant fields). -/
structure OrchResult where
  status : String
  message : String
deriving DecidableEq

/-- TrainBookingOrchestrator.scrape_and_display_trains: fetch through the
flow, then require the inner status to equal ok. -/
def TrainBookingOrchestrator.scrape_and_display_trains (s : FlowState) (f : FetchOutcome) :
    OrchResult × FlowState :=
  let p := TrainBookingFlow.fetch_trains s f
  if p.1.status ≠ "ok" then
    ({ status := "error", message := p.1.message }, p.2)
  else
    ({ status := "success", message := "Found " ++ toString p.2.trains.length ++ " trains" }, p.2)

/-- TrainBookingOrchestrator.select_train_and_coach: select train and coach
through the flow, requiring each inner status to equal ok. -/
def TrainBookingOrchestrator.select_train_and_coach (s : FlowState) (train_index : Int)
    (coach_class : String) : OrchResult × FlowState :=
  let p := TrainBookingFlow.select_train s train_index
  if p.1.status ≠ "ok" then
    ({ status := "error", message := p.1.message }, p.2)
  else
    let q := TrainBookingFlow.select_coach p.2 coach_class
    if q.1.status ≠ "ok" then
      ({ status := "error", message := q.1.message }, q.2)
    else
      ({ status := "success", message := "Selection confirmed" }, q.2)

/-- Metro-city table of _get_railway_station_code (All-Stations URL format). -/
def all_stations_cities : List (String × String) :=
  [("mumbai", "CSMT"), ("delhi", "NDLS"), ("kolkata", "KOAA"), ("chennai", "MAS"),
   ("bangalore", "SBC"), ("bengaluru", "SBC"), ("hyderabad", "HYB"), ("secunderabad", "SC"),
   ("lucknow", "LKO"), ("kanpur", "CNB"), ("varanasi", "BSB"), ("prayagraj", "PRYJ"),
   ("allahabad", "PRYJ"), ("ahmedabad", "ADI"), ("pune", "PUNE"), ("jaipur", "JP"),
   ("bhopal", "BPL"), ("habibganj", "HBJ"), ("patna", "PNBE"), ("bhubaneswar", "BBS"),
   ("guwahati", "GHY"), ("thiruvananthapuram", "TVC"), ("ernakulam", "ERS"), ("kochi", "ERS"),
   ("vijayawada", "BZA"), ("visakhapatnam", "VSKP")]

/-- Single-station table of _get_railway_station_code. -/
def single_station_cities : List (String × String) :=
  [("ongole", "OGL"), ("nellore", "NLR"), ("guntur", "GNT"), ("tirupati", "TPTY"),
   ("warangal", "WL"), ("aurangabad", "AWB"), ("nashik", "NK"), ("agra", "AGC"),
   ("mathura", "MTJ"), ("indore", "INDB"), ("ujjain", "UJN"), ("gwalior", "GWL"),
   ("raipur", "R"), ("bilaspur", "BSP"), ("ranchi", "RNC"), ("darbhanga", "DBG"),
   ("muzaffarpur", "MFP"), ("silchar", "SCL"), ("dimapur", "DMV"), ("agartala", "AGTL"),
   ("amritsar", "ASR"), ("chandigarh", "CDG"), ("shimla", "SML"), ("jammu", "JAT"),
   ("srinagar", "SINA"), ("katra", "SVDK"), ("bathinda", "BTI"), ("ludhiana", "LDH"),
   ("pathankot", "PTK"), ("goa", "MAO"), ("vadodara", "BRC")]

/-- The station-code resolver _get_railway_station_code: strip and lower the
city, look it up in the metro table (second component true), then the
single-station table (false), else upper-case the first three characters
of the space-stripped key, with the placeholder STN for an empty key. -/
def _get_railway_station_code (city : String) : String × Bool :=
  let key := pyLower (pyStrip city)
  match lookupA all_stations_cities key with
  | some code => (code, true)
  | none =>
    match lookupA single_station_cities key with
    | some code => (code, false)
    | none =>
      let fb := String.mk (((key.data.filter (fun c => c != ' ')).take 3).map Char.toUpper)
      (if fb = "" then "STN" else fb, false)

/-- The spec's wording of the resolver fallback: exactly the upper-cased
first three non-space characters of the name. -/
def specFallbackCode (city : String) : String :=
  String.mk (((city.data.filter (fun c => c != ' ')).take 3).map Char.toUpper)

/-- Outcome of the gateway's call into the agent runtime (external). -/
inductive AgentCall where
  | ok (text : String)
  | exn (msg : String)

/-- Claim-relevant fields of a gateway JSON response body. -/
structure ApiBody where
  status : String
  message : String
  conversation_id : Option String
deriving DecidableEq

/-- The query endpoint of outbox/api_server.py: HTTP status and body as a
function of the query and conversation_id parameters (absent keys are
none), the generated hex for the default id, and the agent call outcome.
POST and GET extract parameters identically. -/
def api_server_query (queryParam conversationParam : Option String) (genHex : String)
    (agent : AgentCall) : Nat × ApiBody :=
  let query_text := pyStrip (queryParam.getD (""))
  let conversation_id := conversationParam.getD ("conv_" ++ genHex)
  if query_text = "" then
    (400, { status := "error", message := "Missing \x27query\x27 parameter",
            conversation_id := some conversation_id })
  else
    match agent with
    | .ok t =>
      (200, { status := "success", message := t, conversation_id := some conversation_id })
    | .exn m =>
      (500, { status := "error", message := m, conversation_id := some conversation_id })

/-- The query_ai endpoint of pythonservers/app.py (GET only, no agent call). -/
def app_query_ai (queryParam conversationParam : Option String) (genHex : String) :
    Nat × ApiBody :=
  let query := pyStrip (queryParam.getD (""))
  let conversation_id := conversationParam.getD ("conv_" ++ genHex)
  if query = "" then
    (400, { status := "error", message := "Missing required parameter: query",
            conversation_id := some conversation_id })
  else
    (200, { status := "success", message := "Processing: " ++ query,
            conversation_id := some conversation_id })

theorem isPrefixL_self (l : List Char) : isPrefixL l l = true := by
  induction l with
  | nil => rfl
  | cons a t ih => simp [isPrefixL, ih]

theorem containsSub_append_right (pre needle : List Char) :
    containsSub needle (pre ++ needle) = true := by
  induction pre with
  | nil =>
    cases needle with
    | nil => rfl
    | cons c r => simp [containsSub, isPrefixL_self]
  | cons a t ih => simp [containsSub, ih]

theorem append_ne_empty_left (pre msg : String) (h : pre.data ≠ []) : pre ++ msg ≠ "" := by
  intro he
  have hd := congrArg String.data he
  rw [String.data_append] at hd
  have hnil : pre.data ++ msg.data = ([] : List Char) := hd
  exact h (List.append_eq_nil.mp hnil).1

/-- C5: the orchestrator checks every inner result against the status ok,
but TrainScraper.scrape_trains only returns success, partial or error and
TrainBookingFlow.select_train only returns success or error, so
scrape_and_display_trains and select_train_and_coach answer error for
every input and the booking pipeline can never proceed. -/
theorem orchestrator_status_mismatch :
    (∀ (s : FlowState) (f : FetchOutcome),
      (TrainBookingOrchestrator.scrape_and_display_trains s f).1.status = "error") ∧
    (∀ (s : FlowState) (i : Int) (c : String),
      (TrainBookingOrchestrator.select_train_and_coach s i c).1.status = "error") := by
  constructor
  · intro s f
    cases f with
    | ok cards =>
      unfold TrainBookingOrchestrator.scrape_and_display_trains TrainBookingFlow.fetch_trains
        TrainScraper.scrape_trains
      by_cases h : (scraperLoop cards 0).isEmpty <;> simp [h]
    | exn msg =>
      unfold TrainBookingOrchestrator.scrape_and_display_trains TrainBookingFlow.fetch_trains
        TrainScraper.scrape_trains
      simp
  · intro s i c
    unfold TrainBookingOrchestrator.select_train_and_coach TrainBookingFlow.select_train
    by_cases h : 0 ≤ i ∧ i < (s.trains.length : Int) <;> simp [h]

/-- C10: a query request whose query parameter is missing or trims to the
empty string is answered with HTTP 400 and a body whose status is error
and whose conversation_id is the caller-supplied id, or the generated
default id when none was supplied; this holds for both gateway variants. -/
theorem api_query_empty_rejected (qp cp : Option String) (gen : String) (agent : AgentCall)
    (h : pyStrip (qp.getD ("")) = "") :
    (api_server_query qp cp gen agent).1 = 400 ∧
    (api_server_query qp cp gen agent).2.status = "error" ∧
    (api_server_query qp cp gen agent).2.conversation_id = some (cp.getD ("conv_" ++ gen)) ∧
    (app_query_ai qp cp gen).1 = 400 ∧
    (app_query_ai qp cp gen).2.status = "error" ∧
    (app_query_ai qp cp gen).2.conversation_id = some (cp.getD ("conv_" ++ gen)) := by
  unfold api_server_query app_query_ai
  simp [h]

theorem api_query_empty_rejected_witness :
    pyStrip ((some ("   ") : Option String).getD ("")) = "" ∧
    (api_server_query (some ("   ")) (some ("abc")) ("deadbeef") (AgentCall.ok ("hi"))).1 = 400 ∧
    (api_server_query (some ("   ")) (some ("abc")) ("deadbeef")
      (AgentCall.ok ("hi"))).2.conversation_id = some ("abc") ∧
    (api_server_query none none ("deadbeef") (AgentCall.ok ("hi"))).2.conversation_id =
      some ("conv_deadbeef") ∧
    (app_query_ai none (some ("abc")) ("deadbeef")).1 = 400 := by
  refine ⟨by decide, ?_, ?_, ?_, ?_⟩
  · exact (api_query_empty_rejected (some ("   ")) (some ("abc")) ("deadbeef")
      (AgentCall.ok ("hi")) (by decide)).1
  · exact (api_query_empty_rejected (some ("   ")) (some ("abc")) ("deadbeef")
      (AgentCall.ok ("hi")) (by decide)).2.2.1
  · exact (api_query_empty_rejected none none ("deadbeef")
      (AgentCall.ok ("hi")) (by decide)).2.2.1
  · exact (api_query_empty_rejected none (some ("abc")) ("deadbeef")
      (AgentCall.ok ("hi")) (by decide)).2.2.2.1

/-- C1: select_coach called before any train is selected fails with the
invalid-state message and leaves the state unchanged; with a selected
train, the requested class is normalized with upper() and strip(); an
unavailable normalized class yields an error whose message lists the
train's coaches_available and leaves the state unchanged; an available
class succeeds and records the class. -/
theorem chooseClass_validation (s : FlowState) (code : String) :
    (s.selected_train = none →
      (TrainBookingFlow.select_coach s code).1.status = "error" ∧
      (TrainBookingFlow.select_coach s code).1.message = "Please select a train first" ∧
      (TrainBookingFlow.select_coach s code).2 = s) ∧
    (∀ t : ScraperTrain, s.selected_train = some t →
      (pyStrip (pyUpper code) ∉ t.coaches_available →
        (TrainBookingFlow.select_coach s code).1.status = "error" ∧
        (TrainBookingFlow.select_coach s code).1.message =
          "Coach " ++ pyStrip (pyUpper code) ++ " not available for this train. Available: " ++
            joinComma t.coaches_available ∧
        (TrainBookingFlow.select_coach s code).2 = s) ∧
      (pyStrip (pyUpper code) ∈ t.coaches_available →
        (TrainBookingFlow.select_coach s code).1.status = "success" ∧
        (TrainBookingFlow.select_coach s code).1.coach_class = some (pyStrip (pyUpper code)) ∧
        (TrainBookingFlow.select_coach s code).2 =
          { s with selected_coach := some (pyStrip (pyUpper code)) })) := by
  constructor
  · intro h
    unfold TrainBookingFlow.select_coach
    rw [h]
    exact ⟨rfl, rfl, rfl⟩
  · intro t ht
    constructor
    · intro hni
      unfold TrainBookingFlow.select_coach
      rw [ht]
      dsimp only
      rw [if_neg hni]
      exact ⟨rfl, rfl, rfl⟩
    · intro hin
      unfold TrainBookingFlow.select_coach
      rw [ht]
      dsimp only
      rw [if_pos hin]
      exact ⟨rfl, rfl, rfl⟩

/-- Concrete train used to instantiate the booking-flow theorems. -/
def witnessTrain : ScraperTrain :=
  { index := 0, train_number := "12627", train_name := "Karnataka Express",
    departure := "10:00", arrival := "14:30", duration := "4h 30m",
    price_from := "450", seats_available := "Multiple",
    coaches_available := ["SL", "3A"] }

theorem chooseClass_validation_witness :
    ((⟨[], none, none⟩ : FlowState).selected_train = none ∧
      (TrainBookingFlow.select_coach (⟨[], none, none⟩ : FlowState) ("2A")).1.status = "error") ∧
    (pyStrip (pyUpper ("9Z")) ∉ witnessTrain.coaches_available ∧
      (TrainBookingFlow.select_coach
        (⟨[witnessTrain], some witnessTrain, none⟩ : FlowState) ("9Z")).1.message =
        "Coach 9Z not available for this train. Available: SL, 3A") ∧
    (pyStrip (pyUpper (" 3a ")) ∈ witnessTrain.coaches_available ∧
      (TrainBookingFlow.select_coach
        (⟨[witnessTrain], some witnessTrain, none⟩ : FlowState) (" 3a ")).1.status = "success") := by
  refine ⟨⟨rfl, ?_⟩, ⟨by decide, ?_⟩, ⟨by decide, ?_⟩⟩
  · exact ((chooseClass_validation (⟨[], none, none⟩ : FlowState) ("2A")).1 rfl).1
  · have h := (((chooseClass_validation
      (⟨[witnessTrain], some witnessTrain, none⟩ : FlowState) ("9Z")).2 witnessTrain rfl).1
      (by decide)).2.1
    exact h.trans (by decide)
  · exact ((((chooseClass_validation
      (⟨[witnessTrain], some witnessTrain, none⟩ : FlowState) (" 3a ")).2 witnessTrain rfl).2
      (by decide))).1

/-- C2: select_train succeeds exactly when the index is within bounds; an
out-of-bounds index yields an error whose message contains the valid
range zero to size minus one, and leaves the state unchanged. -/
theorem chooseOffering_bounds (s : FlowState) (i : Int) :
    ((TrainBookingFlow.select_train s i).1.status = "success" ↔
      0 ≤ i ∧ i < (s.trains.length : Int)) ∧
    (¬ (0 ≤ i ∧ i < (s.trains.length : Int)) →
      (TrainBookingFlow.select_train s i).1.status = "error" ∧
      containsSubStr ("0-" ++ toString ((s.trains.length : Int) - 1))
        (TrainBookingFlow.select_train s i).1.message = true ∧
      (TrainBookingFlow.select_train s i).2 = s) := by
  by_cases h : 0 ≤ i ∧ i < (s.trains.length : Int)
  · unfold TrainBookingFlow.select_train
    rw [if_pos h]
    exact ⟨⟨fun _ => h, fun _ => rfl⟩, fun hn => absurd h hn⟩
  · unfold TrainBookingFlow.select_train
    rw [if_neg h]
    refine ⟨⟨fun hs => absurd (show ("error" : String) = "success" from hs) (by decide),
      fun hh => absurd hh h⟩, fun _ => ⟨rfl, ?_, rfl⟩⟩
    show containsSubStr ("0-" ++ toString ((s.trains.length : Int) - 1))
      ("Invalid train index. Please select 0-" ++ toString ((s.trains.length : Int) - 1)) = true
    unfold containsSubStr
    rw [String.data_append, String.data_append]
    have hsplit : ("Invalid train index. Please select 0-").data =
        ("Invalid train index. Please select ").data ++ ("0-").data := by decide
    rw [hsplit, List.append_assoc]
    exact containsSub_append_right ("Invalid train index. Please select ").data _

/-- Concrete five-train selector state for the bounds witness. -/
def witnessFlow5 : FlowState :=
  { trains := [witnessTrain, witnessTrain, witnessTrain, witnessTrain, witnessTrain],
    selected_train := some witnessTrain, selected_coach := some ("3A") }

theorem chooseOffering_bounds_witness :
    (¬ (0 ≤ (5 : Int) ∧ (5 : Int) < (witnessFlow5.trains.length : Int)) ∧
      (TrainBookingFlow.select_train witnessFlow5 5).1.status = "error" ∧
      containsSubStr ("0-4") (TrainBookingFlow.select_train witnessFlow5 5).1.message = true ∧
      (TrainBookingFlow.select_train witnessFlow5 5).2 = witnessFlow5) ∧
    (¬ (0 ≤ (-1 : Int) ∧ (-1 : Int) < (witnessFlow5.trains.length : Int)) ∧
      (TrainBookingFlow.select_train witnessFlow5 (-1)).1.status = "error" ∧
      (TrainBookingFlow.select_train witnessFlow5 (-1)).2 = witnessFlow5) ∧
    (TrainBookingFlow.select_train witnessFlow5 2).1.status = "success" := by
  refine ⟨⟨by decide, ?_, ?_, ?_⟩, ⟨by decide, ?_, ?_⟩, ?_⟩
  · exact ((chooseOffering_bounds witnessFlow5 5).2 (by decide)).1
  · exact ((chooseOffering_bounds witnessFlow5 5).2 (by decide)).2.1
  · exact ((chooseOffering_bounds witnessFlow5 5).2 (by decide)).2.2
  · exact ((chooseOffering_bounds witnessFlow5 (-1)).2 (by decide)).1
  · exact ((chooseOffering_bounds witnessFlow5 (-1)).2 (by decide)).2.2
  · exact (chooseOffering_bounds witnessFlow5 2).1.mpr (by decide)

/-- C9: with a selected train and a selected non-empty coach class,
get_booking_summary succeeds with a snapshot of the selection, does not
change the state, and a second call returns the identical result; with
either selection absent it fails with the incomplete-details error. -/
theorem summarize_idempotent (s : FlowState) (t : ScraperTrain) (c : String)
    (ht : s.selected_train = some t) (hc : s.selected_coach = some c) (hne : c ≠ "") :
    (TrainBookingFlow.get_booking_summary s).1.status = "success" ∧
    (TrainBookingFlow.get_booking_summary s).1.summary = some
      { train_number := t.train_number, train_name := t.train_name,
        departure := t.departure, arrival := t.arrival, duration := t.duration,
        coach_class := c, coach_name := (lookupA COACH_TYPES c).getD c,
        price_from := t.price_from } ∧
    (TrainBookingFlow.get_booking_summary s).2 = s ∧
    TrainBookingFlow.get_booking_summary ((TrainBookingFlow.get_booking_summary s).2) =
      TrainBookingFlow.get_booking_summary s ∧
    (∀ s' : FlowState, s'.selected_train = none ∨ s'.selected_coach = none →
      (TrainBookingFlow.get_booking_summary s').1.status = "error") := by
  have hstep : TrainBookingFlow.get_booking_summary s =
      ({ status := "success"
         summary := some
           { train_number := t.train_number, train_name := t.train_name,
             departure := t.departure, arrival := t.arrival, duration := t.duration,
             coach_class := c, coach_name := (lookupA COACH_TYPES c).getD c,
             price_from := t.price_from }
         message := "Ready to proceed with booking. Please confirm to continue." }, s) := by
    unfold TrainBookingFlow.get_booking_summary
    rw [ht, hc]
    dsimp only
    rw [if_neg hne]
  refine ⟨by rw [hstep], by rw [hstep], by rw [hstep], ?_, ?_⟩
  · rw [hstep]
    exact hstep
  · intro s' h
    obtain ⟨tr', st', sc'⟩ := s'
    unfold TrainBookingFlow.get_booking_summary
    rcases h with hn | hn
    · dsimp only at hn
      subst hn
      cases sc' <;> rfl
    · dsimp only at hn
      subst hn
      cases st' <;> rfl

/-- Concrete completed selection for the summarize witness. -/
def witnessFlowDone : FlowState :=
  { trains := [witnessTrain], selected_train := some witnessTrain,
    selected_coach := some ("3A") }

theorem summarize_idempotent_witness :
    witnessFlowDone.selected_train = some witnessTrain ∧
    witnessFlowDone.selected_coach = some ("3A") ∧ ("3A" : String) ≠ "" ∧
    (TrainBookingFlow.get_booking_summary witnessFlowDone).1.status = "success" ∧
    TrainBookingFlow.get_booking_summary
      ((TrainBookingFlow.get_booking_summary witnessFlowDone).2) =
      TrainBookingFlow.get_booking_summary witnessFlowDone ∧
    (TrainBookingFlow.get_booking_summary
      ({ trains := [], selected_train := none, selected_coach := none } : FlowState)).1.status =
      "error" := by
  refine ⟨rfl, rfl, by decide, ?_, ?_, ?_⟩
  · exact (summarize_idempotent witnessFlowDone witnessTrain ("3A") rfl rfl (by decide)).1
  · exact (summarize_idempotent witnessFlowDone witnessTrain ("3A") rfl rfl
      (by decide)).2.2.2.1
  · exact (summarize_idempotent witnessFlowDone witnessTrain ("3A") rfl rfl
      (by decide)).2.2.2.2 _ (Or.inl rfl)

theorem mkAgentTrain_fields {t : List Char} {num : String} {n : Nat} {tr : AgentTrain}
    (h : mkAgentTrain t num n = some tr) : tr.train_number = num ∧ tr.index = n := by
  unfold mkAgentTrain at h
  cases hft : findTimes t with
  | nil => rw [hft] at h; cases h
  | cons p0 tl0 =>
    cases tl0 with
    | nil => rw [hft] at h; cases h
    | cons p1 tl1 =>
      rw [hft] at h
      injection h with h'
      subst h'
      exact ⟨rfl, rfl⟩

theorem agentLoop_fresh : ∀ (cards : List (List Char)) (seen : List String) (n : Nat)
    (tr : AgentTrain), tr ∈ agentLoop cards seen n → tr.train_number ∉ seen := by
  intro cards
  induction cards with
  | nil => intro seen n tr h; simp [agentLoop] at h
  | cons t rest ih =>
    intro seen n tr h
    simp only [agentLoop] at h
    by_cases h1 : t.length < 20
    · rw [if_pos h1] at h; exact ih _ _ _ h
    · rw [if_neg h1] at h
      by_cases h2 : hasSkipWord agentSkipWords t = true
      · rw [if_pos h2] at h; exact ih _ _ _ h
      · rw [if_neg h2] at h
        cases hx : extractTrainNum t with
        | none => rw [hx] at h; exact ih _ _ _ h
        | some num =>
          rw [hx] at h
          dsimp only at h
          by_cases h3 : num ∈ seen
          · rw [if_pos h3] at h; exact ih _ _ _ h
          · rw [if_neg h3] at h
            cases hm : mkAgentTrain t num n with
            | none =>
              rw [hm] at h
              dsimp only at h
              intro hmem
              exact (ih _ _ _ h) (List.mem_cons_of_mem _ hmem)
            | some tr2 =>
              rw [hm] at h
              dsimp only at h
              rcases List.mem_cons.mp h with rfl | htl
              · rw [(mkAgentTrain_fields hm).1]; exact h3
              · by_cases h4 : n + 1 ≥ 20
                · rw [if_pos h4] at htl; simp at htl
                · rw [if_neg h4] at htl
                  intro hmem
                  exact (ih _ _ _ htl) (List.mem_cons_of_mem _ hmem)

theorem agentLoop_nodup : ∀ (cards : List (List Char)) (seen : List String) (n : Nat),
    (agentLoop cards seen n).Pairwise (fun a b => a.train_number ≠ b.train_number) := by
  intro cards
  induction cards with
  | nil => intro seen n; simp [agentLoop]
  | cons t rest ih =>
    intro seen n
    simp only [agentLoop]
    by_cases h1 : t.length < 20
    · rw [if_pos h1]; exact ih _ _
    · rw [if_neg h1]
      by_cases h2 : hasSkipWord agentSkipWords t = true
      · rw [if_pos h2]; exact ih _ _
      · rw [if_neg h2]
        cases hx : extractTrainNum t with
        | none => exact ih _ _
        | some num =>
          dsimp only
          by_cases h3 : num ∈ seen
          · rw [if_pos h3]; exact ih _ _
          · rw [if_neg h3]
            cases hm : mkAgentTrain t num n with
            | none => exact ih _ _
            | some tr2 =>
              dsimp only
              rw [List.pairwise_cons]
              constructor
              · intro b hb
                rw [(mkAgentTrain_fields hm).1]
                by_cases h4 : n + 1 ≥ 20
                · rw [if_pos h4] at hb; simp at hb
                · rw [if_neg h4] at hb
                  intro he
                  have hf := agentLoop_fresh rest (num :: seen) (n + 1) b hb
                  rw [← he] at hf
                  exact hf (List.mem_cons_self _ _)
              · by_cases h4 : n + 1 ≥ 20
                · rw [if_pos h4]; exact List.Pairwise.nil
                · rw [if_neg h4]; exact ih _ _

theorem scraperLoop_indices : ∀ (cards : List (List Char)) (n : Nat),
    (scraperLoop cards n).map (fun tr => tr.index) =
      List.range' n (scraperLoop cards n).length := by
  intro cards
  induction cards with
  | nil => intro n; simp [scraperLoop]
  | cons t rest ih =>
    intro n
    simp only [scraperLoop]
    by_cases h1 : (t.length < 50 || hasSkipWord scraperSkipWords t) = true
    · rw [if_pos h1]; exact ih n
    · rw [if_neg h1]
      cases hx : extractTrainNum t with
      | none => exact ih n
      | some num =>
        dsimp only
        by_cases h4 : n + 1 ≥ 20
        · rw [if_pos h4]
          simp [List.range'_succ]
          rfl
        · rw [if_neg h4]
          simp only [List.map_cons, List.length_cons, List.range'_succ]
          exact congrArg₂ List.cons rfl (ih (n + 1))

theorem scraperLoop_cap : ∀ (cards : List (List Char)) (n : Nat), n < 20 →
    (scraperLoop cards n).length + n ≤ 20 := by
  intro cards
  induction cards with
  | nil => intro n hn; simp [scraperLoop]; omega
  | cons t rest ih =>
    intro n hn
    simp only [scraperLoop]
    by_cases h1 : (t.length < 50 || hasSkipWord scraperSkipWords t) = true
    · rw [if_pos h1]; exact ih n hn
    · rw [if_neg h1]
      cases hx : extractTrainNum t with
      | none => exact ih n hn
      | some num =>
        dsimp only
        by_cases h4 : n + 1 ≥ 20
        · rw [if_pos h4]; simp; omega
        · rw [if_neg h4]
          have := ih (n + 1) (by omega)
          simp only [List.length_cons]
          omega

theorem agentLoop_indices : ∀ (cards : List (List Char)) (seen : List String) (n : Nat),
    (agentLoop cards seen n).map (fun tr => tr.index) =
      List.range' n (agentLoop cards seen n).length := by
  intro cards
  induction cards with
  | nil => intro seen n; simp [agentLoop]
  | cons t rest ih =>
    intro seen n
    simp only [agentLoop]
    by_cases h1 : t.length < 20
    · rw [if_pos h1]; exact ih seen n
    · rw [if_neg h1]
      by_cases h2 : hasSkipWord agentSkipWords t = true
      · rw [if_pos h2]; exact ih seen n
      · rw [if_neg h2]
        cases hx : extractTrainNum t with
        | none => exact ih seen n
        | some num =>
          dsimp only
          by_cases h3 : num ∈ seen
          · rw [if_pos h3]; exact ih seen n
          · rw [if_neg h3]
            cases hm : mkAgentTrain t num n with
            | none => exact ih _ n
            | some tr2 =>
              dsimp only
              by_cases h4 : n + 1 ≥ 20
              · rw [if_pos h4]
                simp [List.range'_succ, (mkAgentTrain_fields hm).2]
              · rw [if_neg h4]
                simp only [List.map_cons, List.length_cons, List.range'_succ,
                  (mkAgentTrain_fields hm).2]
                exact congrArg (List.cons n) (ih _ (n + 1))

theorem agentLoop_cap : ∀ (cards : List (List Char)) (seen : List String) (n : Nat),
    n < 20 → (agentLoop cards seen n).length + n ≤ 20 := by
  intro cards
  induction cards with
  | nil => intro seen n hn; simp [agentLoop]; omega
  | cons t rest ih =>
    intro seen n hn
    simp only [agentLoop]
    by_cases h1 : t.length < 20
    · rw [if_pos h1]; exact ih seen n hn
    · rw [if_neg h1]
      by_cases h2 : hasSkipWord agentSkipWords t = true
      · rw [if_pos h2]; exact ih seen n hn
      · rw [if_neg h2]
        cases hx : extractTrainNum t with
        | none => exact ih seen n hn
        | some num =>
          dsimp only
          by_cases h3 : num ∈ seen
          · rw [if_pos h3]; exact ih seen n hn
          · rw [if_neg h3]
            cases hm : mkAgentTrain t num n with
            | none => exact ih _ n hn
            | some tr2 =>
              dsimp only
              by_cases h4 : n + 1 ≥ 20
              · rw [if_pos h4]; simp; omega
              · rw [if_neg h4]
                have := ih (num :: seen) (n + 1) (by omega)
                simp only [List.length_cons]
                omega

/-- C4: for every fetch outcome, both scrapers accept at most 20 offerings
and assign the k-th accepted offering the index k, so indices form the
dense range 0..N-1 in acceptance order. -/
theorem catalog_shape (f : FetchOutcome) :
    ((TrainScraper.scrape_trains f).trains.length ≤ 20 ∧
      (TrainScraper.scrape_trains f).trains.map (fun tr => tr.index) =
        List.range (TrainScraper.scrape_trains f).trains.length) ∧
    ((get_trains_easemytrip f).trains.length ≤ 20 ∧
      (get_trains_easemytrip f).trains.map (fun tr => tr.index) =
        List.range (get_trains_easemytrip f).trains.length) := by
  cases f with
  | ok cards =>
    refine ⟨⟨?_, ?_⟩, ⟨?_, ?_⟩⟩
    · show (scraperLoop cards 0).length ≤ 20
      have := scraperLoop_cap cards 0 (by omega)
      omega
    · have := scraperLoop_indices cards 0
      rw [List.range_eq_range']
      exact this
    · show (agentLoop cards [] 0).length ≤ 20
      have := agentLoop_cap cards [] 0 (by omega)
      omega
    · have := agentLoop_indices cards [] 0
      rw [List.range_eq_range']
      exact this
  | exn msg =>
    exact ⟨⟨by simp [TrainScraper.scrape_trains], by simp [TrainScraper.scrape_trains]⟩,
      ⟨by simp [get_trains_easemytrip], by simp [get_trains_easemytrip]⟩⟩

/-- Candidate text long enough for both scrapers, carrying the 4-5 digit
identifier 12345 and two time tokens. -/
def dupCandidate : List Char :=
  ("12345 Chennai Express Superfast Daily Service 10:00 14:30 Price 450 Rupees 2A 3A available").data

/-- C3 counterexample: TrainScraper.scrape_trains performs no deduplication,
so two candidate blocks with the identical identifier 12345 produce two
offerings sharing that identifier, refuting the claim for this scraper. -/
theorem scraper_no_dedup_counterexample :
    (TrainScraper.scrape_trains (.ok [dupCandidate, dupCandidate])).trains.map
      (fun tr => tr.train_number) = ["12345", "12345"] ∧
    ¬ (TrainScraper.scrape_trains (.ok [dupCandidate, dupCandidate])).trains.Pairwise
      (fun a b => a.train_number ≠ b.train_number) := by
  constructor
  · rfl
  · decide

/-- C3 amended: get_trains_easemytrip skips any candidate whose extracted
identifier was already seen in the same scrape, so its catalog never holds
two offerings with the same identifier, and two candidate blocks with the
identical identifier yield exactly one offering there. -/
theorem agent_dedup_by_identifier :
    (∀ f : FetchOutcome, (get_trains_easemytrip f).trains.Pairwise
      (fun a b => a.train_number ≠ b.train_number)) ∧
    (get_trains_easemytrip (.ok [dupCandidate, dupCandidate])).trains.length = 1 ∧
    (get_trains_easemytrip (.ok [dupCandidate, dupCandidate])).trains.map
      (fun tr => tr.train_number) = ["12345"] := by
  refine ⟨?_, by rfl, by rfl⟩
  intro f
  cases f with
  | ok cards => exact agentLoop_nodup cards [] 0
  | exn msg => exact List.Pairwise.nil

/-- The fixture row text of the end-to-end scenario. -/
def fixtureCandidate : List Char :=
  ("12345 Express 10:00 14:30 ₹450 2A 3A").data

/-- C6 counterexample: the fixture row has only 36 characters, so
TrainScraper.scrape_trains rejects it with its 50-character noise filter
and yields no offering at all, refuting the claim that the listing scrape
yields exactly one Offering for this fixture. -/
theorem fixture_counterexample :
    (TrainScraper.scrape_trains (.ok [fixtureCandidate])).trains = [] ∧
    fixtureCandidate.length = 36 ∧
    (TrainScraper.scrape_trains (.ok [fixtureCandidate])).trains.length ≠ 1 := by
  exact ⟨rfl, rfl, by decide⟩

/-- C6 amended: on the fixture row, get_trains_easemytrip yields exactly one
offering with identifier 12345, departure 10:00, arrival 14:30 and a price
containing 450 (that scraper extracts no availableClasses field), while
TrainScraper.scrape_trains, whose coach extraction would supply the class
list, rejects the 36-character row as too short and yields none. -/
theorem fixture_scenario :
    (get_trains_easemytrip (.ok [fixtureCandidate])).trains.map
      (fun tr => (tr.train_number, tr.departure, tr.arrival)) =
      [("12345", "10:00", "14:30")] ∧
    (get_trains_easemytrip (.ok [fixtureCandidate])).trains.map
      (fun tr => containsSubStr ("450") tr.price) = [true] ∧
    (get_trains_easemytrip (.ok [fixtureCandidate])).total_trains = 1 := by
  exact ⟨rfl, rfl, rfl⟩

/-- C7 counterexample: a successful fetch with zero accepted candidates is
answered by get_trains_easemytrip with status ok and an empty offerings
list, not with status error or partial as the claim requires. -/
theorem zero_candidates_status_counterexample :
    (get_trains_easemytrip (.ok [])).trains = [] ∧
    (get_trains_easemytrip (.ok [])).status = "ok" ∧
    (get_trains_easemytrip (.ok [])).status ≠ "error" ∧
    (get_trains_easemytrip (.ok [])).status ≠ "partial" := by
  exact ⟨rfl, rfl, by decide, by decide⟩

/-- C7 amended: both scrapers always return a structured result.  A raised
network or HTTP failure yields status error with a non-empty diagnostic
and no offerings from either scraper; a successful fetch yields status
partial from TrainScraper.scrape_trains exactly when no candidate was
accepted and success otherwise, while get_trains_easemytrip answers
status ok even for an empty catalog. -/
theorem scrape_failures_nonfatal :
    (∀ msg : String,
      (TrainScraper.scrape_trains (.exn msg)).status = "error" ∧
      (TrainScraper.scrape_trains (.exn msg)).trains = [] ∧
      (TrainScraper.scrape_trains (.exn msg)).message ≠ "" ∧
      (get_trains_easemytrip (.exn msg)).status = "error" ∧
      (get_trains_easemytrip (.exn msg)).trains = [] ∧
      (get_trains_easemytrip (.exn msg)).error_message =
        some ("Failed to fetch trains: " ++ msg) ∧
      ("Failed to fetch trains: " ++ msg) ≠ "") ∧
    (∀ cards : List (List Char),
      ((TrainScraper.scrape_trains (.ok cards)).status = "partial" ∨
        (TrainScraper.scrape_trains (.ok cards)).status = "success") ∧
      ((TrainScraper.scrape_trains (.ok cards)).trains = [] →
        (TrainScraper.scrape_trains (.ok cards)).status = "partial") ∧
      (get_trains_easemytrip (.ok cards)).status = "ok") := by
  constructor
  · intro msg
    refine ⟨rfl, rfl, ?_, rfl, rfl, rfl, ?_⟩
    · exact append_ne_empty_left ("Error scraping trains: ") msg (by decide)
    · exact append_ne_empty_left ("Failed to fetch trains: ") msg (by decide)
  · intro cards
    refine ⟨?_, ?_, rfl⟩
    · unfold TrainScraper.scrape_trains
      dsimp only
      by_cases h : (scraperLoop cards 0).isEmpty
      · rw [if_pos h]; exact Or.inl rfl
      · rw [if_neg h]; exact Or.inr rfl
    · intro he
      unfold TrainScraper.scrape_trains at he ⊢
      dsimp only at he ⊢
      have hempty : (scraperLoop cards 0).isEmpty = true := by
        have hnil : scraperLoop cards 0 = [] := he
        rw [hnil]
        rfl
      rw [if_pos hempty]

theorem scrape_failures_nonfatal_witness :
    ((TrainScraper.scrape_trains (.ok ([] : List (List Char)))).trains = [] ∧
      (TrainScraper.scrape_trains (.ok ([] : List (List Char)))).status = "partial") ∧
    (TrainScraper.scrape_trains (.exn ("timed out"))).status = "error" ∧
    (TrainScraper.scrape_trains (.exn ("timed out"))).message ≠ "" := by
  refine ⟨⟨rfl, ?_⟩, ?_, ?_⟩
  · exact ((scrape_failures_nonfatal).2 ([] : List (List Char))).2.1 rfl
  · exact ((scrape_failures_nonfatal).1 ("timed out")).1
  · exact ((scrape_failures_nonfatal).1 ("timed out")).2.2.1

theorem char_toNat_ofNat_valid {m : Nat} (h : m.isValidChar) : (Char.ofNat m).toNat = m := by
  rw [Char.ofNat, dif_pos h]
  rfl

theorem toUpper_toLower (c : Char) : c.toLower.toUpper = c.toUpper := by
  unfold Char.toLower Char.toUpper
  by_cases h : c.toNat ≥ 65 ∧ c.toNat ≤ 90
  · rw [if_pos h]
    have hv : (c.toNat + 32).isValidChar := Or.inl (by omega)
    have ht : (Char.ofNat (c.toNat + 32)).toNat = c.toNat + 32 := char_toNat_ofNat_valid hv
    rw [ht]
    rw [if_pos (by omega : (c.toNat + 32) ≥ 97 ∧ (c.toNat + 32) ≤ 122)]
    rw [if_neg (by omega : ¬ (c.toNat ≥ 97 ∧ c.toNat ≤ 122))]
    have harith : c.toNat + 32 - 32 = c.toNat := by omega
    rw [harith, Char.ofNat_toNat]
  · rw [if_neg h]

theorem toLower_eq_space_iff (c : Char) : (Char.toLower c = ' ') ↔ (c = ' ') := by
  unfold Char.toLower
  by_cases h : c.toNat ≥ 65 ∧ c.toNat ≤ 90
  · rw [if_pos h]
    constructor
    · intro he
      have hn := congrArg Char.toNat he
      rw [char_toNat_ofNat_valid (Or.inl (by omega))] at hn
      have hsp : (' ' : Char).toNat = 32 := rfl
      omega
    · intro he
      subst he
      exact absurd h (by decide)
  · rw [if_neg h]

theorem bne_space_toLower (a : Char) : (Char.toLower a != ' ') = (a != ' ') := by
  by_cases hsp : a = ' '
  · subst hsp; rfl
  · have hl : Char.toLower a ≠ ' ' := fun hh => hsp ((toLower_eq_space_iff a).mp hh)
    rw [bne_iff_ne.mpr hl, bne_iff_ne.mpr hsp]

theorem filter_dropWhile_eq (p q : Char → Bool) (x : List Char)
    (hx : ∀ c ∈ x, p c = true → q c = false) :
    (x.dropWhile p).filter q = x.filter q := by
  conv_rhs => rw [← List.takeWhile_append_dropWhile p x]
  rw [List.filter_append]
  have hnil : (x.takeWhile p).filter q = [] := by
    rw [List.filter_eq_nil_iff]
    intro a ha
    have hp := List.mem_takeWhile_imp ha
    have hmem : a ∈ x := (List.takeWhile_sublist p).subset ha
    rw [hx a hmem hp]
    simp
  rw [hnil, List.nil_append]

theorem filter_pyStripL (l : List Char)
    (h : ∀ c ∈ l, isSpaceChar c = true → c = ' ') :
    (pyStripL l).filter (fun c => c != ' ') = l.filter (fun c => c != ' ') := by
  have hq : ∀ x : List Char, (∀ c ∈ x, c ∈ l) →
      ∀ c ∈ x, isSpaceChar c = true → (fun c => c != ' ') c = false := by
    intro x hsub c hc hsp
    have hce := h c (hsub c hc) hsp
    subst hce
    rfl
  unfold pyStripL
  rw [List.filter_reverse]
  rw [filter_dropWhile_eq _ _ _ (hq _ (fun c hc => by
    rw [List.mem_reverse] at hc
    exact (List.dropWhile_sublist isSpaceChar).subset hc))]
  rw [List.filter_reverse, List.reverse_reverse]
  exact filter_dropWhile_eq _ _ _ (hq l (fun c hc => hc))

/-- C8: the resolver is total: every metro-table city resolves to its
table code with the all-stations flag true, every single-station-table
city to its code with the flag false, every other name whose normalized
key is non-empty (containing no whitespace other than spaces) to exactly
the upper-cased first three non-space characters of the name, and the
empty input to the placeholder STN. -/
theorem station_code_resolver_total :
    (∀ p ∈ all_stations_cities, _get_railway_station_code p.1 = (p.2, true)) ∧
    (∀ p ∈ single_station_cities, _get_railway_station_code p.1 = (p.2, false)) ∧
    (∀ city : String,
      lookupA all_stations_cities (pyLower (pyStrip city)) = none →
      lookupA single_station_cities (pyLower (pyStrip city)) = none →
      pyLower (pyStrip city) ≠ "" →
      (∀ c ∈ city.data, isSpaceChar c = true → c = ' ') →
      _get_railway_station_code city = (specFallbackCode city, false)) ∧
    _get_railway_station_code ("") = ("STN", false) := by
  refine ⟨by decide, by decide, ?_, by decide⟩
  intro city h1 h2 h3 h4
  unfold _get_railway_station_code
  dsimp only
  rw [h1, h2]
  have hfilter : (pyLower (pyStrip city)).data.filter (fun c => c != ' ') =
      (city.data.filter (fun c => c != ' ')).map Char.toLower := by
    show ((pyStripL city.data).map Char.toLower).filter (fun c => c != ' ') = _
    rw [List.filter_map]
    have hcongr : (pyStripL city.data).filter ((fun c => c != ' ') ∘ Char.toLower) =
        (pyStripL city.data).filter (fun c => c != ' ') :=
      List.filter_congr (fun a _ => bne_space_toLower a)
    rw [hcongr, filter_pyStripL city.data h4]
  have hfb : String.mk
      ((((pyLower (pyStrip city)).data.filter (fun c => c != ' ')).take 3).map Char.toUpper) =
      specFallbackCode city := by
    rw [hfilter, ← List.map_take, List.map_map]
    have hmap : List.map (Char.toUpper ∘ Char.toLower)
        (List.take 3 (List.filter (fun c => c != ' ') city.data)) =
        List.map Char.toUpper (List.take 3 (List.filter (fun c => c != ' ') city.data)) :=
      List.map_congr_left (fun a _ => toUpper_toLower a)
    rw [hmap]
    rfl
  rw [hfb]
  have hne : specFallbackCode city ≠ "" := by
    intro he
    have hd : ((city.data.filter (fun c => c != ' ')).take 3).map Char.toUpper =
        ([] : List Char) := congrArg String.data he
    rw [List.map_eq_nil_iff, List.take_eq_nil_iff] at hd
    rcases hd with h30 | hfil
    · exact absurd h30 (by decide)
    · have hall : ∀ c ∈ city.data, isSpaceChar c = true := by
        intro c hc
        have hnq := List.filter_eq_nil_iff.mp hfil c hc
        have hcsp : c = ' ' := by
          by_contra hne2
          exact hnq (bne_iff_ne.mpr hne2)
        rw [hcsp]
        rfl
      have hdw : city.data.dropWhile isSpaceChar = [] := List.dropWhile_eq_nil_iff.mpr hall
      apply h3
      show String.mk ((pyStripL city.data).map Char.toLower) = ""
      unfold pyStripL
      rw [hdw]
      rfl
  rw [if_neg hne]

theorem station_code_resolver_total_witness :
    _get_railway_station_code ("mumbai") = ("CSMT", true) ∧
    _get_railway_station_code ("ongole") = ("OGL", false) ∧
    (_get_railway_station_code ("Visakha") = (specFallbackCode ("Visakha"), false) ∧
      specFallbackCode ("Visakha") = "VIS") := by
  refine ⟨?_, ?_, ?_, rfl⟩
  · exact (station_code_resolver_total).1 ("mumbai", "CSMT") (by decide)
  · exact (station_code_resolver_total).2.1 ("ongole", "OGL") (by decide)
  · exact (station_code_resolver_total).2.2.1 ("Visakha") (by decide) (by decide)
      (by decide) (by decide)
